import Mathlib

/-!
Shallow embedding of the catbreak browser extension's scheduled-fetch-and-cache
client, translated from `src/extension/background.js` and the second (current)
popup variant in `src/extension/popup.js`.

JavaScript runtime values are modelled by the inductive type `JVal`; a thrown
exception (TypeError, RangeError, rejected fetch, JSON parse failure) is
modelled by `none` in an `Option` result.  Storage keys `backendIP`/`siteUrl`
(chrome.storage.sync) and `latestNews` (chrome.storage.local) become record
fields; HTTP is modelled by a `FetchResult` the environment supplies for the
single GET a step may perform; observable side effects (the GET itself, the
notification, the error log, the call to `render`) are collected in a trace of
`Event`s.
-/

namespace Catbreak

/-- A JavaScript value, as far as the extension manipulates them: JSON values
plus `undefined` (numbers restricted to integers, which is all the code and
its payloads use). -/
inductive JVal where
  | vNull
  | vUndefined
  | vBool (b : Bool)
  | vNum (n : Int)
  | vStr (s : String)
  | vArr (elems : List JVal)
  | vObj (fields : List (String × JVal))

/-- JavaScript truthiness: `null`, `undefined`, `false`, `0` and `""` are
falsy; every array and object is truthy. -/
def truthy : JVal → Bool
  | .vNull => false
  | .vUndefined => false
  | .vBool b => b
  | .vNum n => n != 0
  | .vStr s => s != ""
  | .vArr _ => true
  | .vObj _ => true

/-- The `Array.isArray` test used by the popup's `render`. -/
def isArray : JVal → Bool
  | .vArr _ => true
  | _ => false

/-- JavaScript property access `v[k]`: `none` models the TypeError thrown when
reading a property of `null` or `undefined`; a missing field, or a field of a
primitive or array, reads as `undefined`. -/
def getProp : JVal → String → Option JVal
  | .vNull, _ => none
  | .vUndefined, _ => none
  | .vObj fields, k => some ((fields.lookup k).getD .vUndefined)
  | _, _ => some .vUndefined

mutual
/-- JavaScript ToString as used inside the template literal of `render`:
primitives print their usual text, arrays join their elements with commas,
plain objects print as `[object Object]`. -/
def jvalToDisplayString : JVal → String
  | .vNull => "null"
  | .vUndefined => "undefined"
  | .vBool b => if b then "true" else "false"
  | .vNum n => toString n
  | .vStr s => s
  | .vArr elems => jvalListToDisplayString elems
  | .vObj _ => "[object Object]"

/-- Comma join of array elements, per JavaScript Array.prototype.toString. -/
def jvalListToDisplayString : List JVal → String
  | [] => ""
  | [x] => jvalToDisplayString x
  | x :: xs => jvalToDisplayString x ++ "," ++ jvalListToDisplayString xs
end

/-- JavaScript ToIntegerOrInfinity on the integral values this code meets:
integers stay themselves, booleans become 0/1, `undefined` (NaN) becomes 0,
and the remaining values go through their string form, non-numeric text
(NaN) becoming 0. -/
def jsToIntegerOrInfinity : JVal → Int
  | .vNum n => n
  | .vBool b => if b then 1 else 0
  | .vUndefined => 0
  | v => ((jvalToDisplayString v).trim.toInt?).getD 0

/-- JavaScript `s.repeat(count)` from the rating line of `render`: `none`
models the RangeError raised when the count converts to a negative integer. -/
def jsRepeat (s : String) (count : JVal) : Option String :=
  let n := jsToIntegerOrInfinity count
  if n < 0 then none
  else some (String.join (List.replicate n.toNat s))

/-- The glyph used by `render` for one unit of rating. -/
def ratingGlyph : String := "🐶"

/-- The normalization step of the popup's `render`:
`Array.isArray(response) ? response : response.articles || []`.
Returns `none` when `response` is `null` or `undefined`, where the property
access throws a TypeError. -/
def normalizeArticles (response : JVal) : Option JVal :=
  if isArray response then some response
  else (getProp response "articles").map fun a => if truthy a then a else .vArr []

/-- The innerHTML built by `render` for one article `a`: title link, summary,
and the rating glyph repeated `a.rating` times.  `none` models a thrown
exception (TypeError on a `null` article, RangeError on a negative rating). -/
def articleRowHtml (a : JVal) : Option String := do
  let url ← getProp a "url"
  let title ← getProp a "title"
  let summary ← getProp a "summary"
  let rating ← getProp a "rating"
  let glyphs ← jsRepeat ratingGlyph rating
  some ("\n      <div class=\"title\"><a href=\"" ++ jvalToDisplayString url
    ++ "\" target=\"_blank\">" ++ jvalToDisplayString title
    ++ "</a></div>\n      <div class=\"summary\">" ++ jvalToDisplayString summary
    ++ "</div>\n      <div class=\"rating\">" ++ glyphs ++ "</div>\n    ")

/-- The popup's `render(response)`: normalize, then `articles.forEach` appends
one row per article.  `none` models a thrown exception: a TypeError from the
normalization, a TypeError because `forEach` is absent on a non-array
`articles` value, or a row construction that throws. -/
def render (response : JVal) : Option (List String) := do
  let articles ← normalizeArticles response
  match articles with
  | .vArr elems => elems.mapM articleRowHtml
  | _ => none

/-- The first popup variant's `render(articles)`, which calls
`articles.forEach` directly with no normalization. -/
def renderBare (articles : JVal) : Option (List String) :=
  match articles with
  | .vArr elems => elems.mapM articleRowHtml
  | _ => none

/-- The chrome.storage.sync keys the extension uses. -/
structure SyncStorage where
  backendIP : Option String
  siteUrl : Option String

/-- The chrome.storage.local key the extension uses. -/
structure LocalStorage where
  latestNews : Option JVal

/-- The popup's `newsContainer` DOM node: a text content plus the article divs
appended by `render`.  Setting `textContent` replaces all children; setting
`innerHTML = ''` clears them. -/
structure Container where
  text : String
  rows : List String

/-- The environment's answer to the one HTTP GET a step may perform:
the fetch promise rejects (network failure), or a response arrives with a
status flag `ok` and a body that either parses as JSON (`some`) or does not
(`none`, where `resp.json()` rejects). -/
inductive FetchResult where
  | networkFailure
  | response (ok : Bool) (body : Option JVal)

/-- Observable side effects of one step, in order of occurrence. -/
inductive Event where
  | httpGet (url : String)
  | notify
  | logError
  | renderCall

/-- Test used to count Fetch Client invocations in a trace. -/
def Event.isHttpGet : Event → Bool
  | .httpGet _ => true
  | _ => false

/-- Reading `backendIP` from sync storage, as both `getBackendIP` in
background.js and the destructuring reads in popup.js do: a missing key reads
as `undefined`. -/
def getBackendIP (sync : SyncStorage) : JVal :=
  match sync.backendIP with
  | some s => .vStr s
  | none => .vUndefined

/-- The URL template `http://$\x7bip\x7d:8000/news` shared by background.js and
popup.js. -/
def newsUrl (ip : String) : String := "http://" ++ ip ++ ":8000/news"

/-- The `chrome.alarms.onAlarm` listener of background.js: on the `fetchNews`
alarm, read `backendIP` and silently return if it is falsy; otherwise GET the
news URL, throw on a non-ok status or an unparsable body (caught below and
logged), and on success store the parsed body wholesale under `latestNews`
and raise one notification. -/
def schedulerOnAlarm (alarmName : String) (sync : SyncStorage) (store : LocalStorage)
    (net : FetchResult) : LocalStorage × List Event :=
  if alarmName != "fetchNews" then (store, [])
  else
    let ip := getBackendIP sync
    if !truthy ip then (store, [])
    else
      let url := newsUrl (jvalToDisplayString ip)
      match net with
      | .networkFailure => (store, [.httpGet url, .logError])
      | .response ok body =>
        if !ok then (store, [.httpGet url, .logError])
        else
          match body with
          | none => (store, [.httpGet url, .logError])
          | some data => ({ latestNews := some data }, [.httpGet url, .notify])

/-- The popup's `loadNews` (second variant): read `latestNews`, clear the
container; if the cached value is falsy, show the fetching placeholder, read
`backendIP` and return if it is falsy, else GET the news URL with no status
check, parse, store under `latestNews`, and render, any exception in that
block being caught and replaced by the fixed error text; if the cached value
is truthy, render it outside any try/catch.  The first component is `none`
when an exception escapes `loadNews` uncaught; the second is the trace. -/
def loadNews (sync : SyncStorage) (store : LocalStorage) (net : FetchResult) :
    Option (LocalStorage × Container) × List Event :=
  let latestNews := store.latestNews.getD .vUndefined
  if !truthy latestNews then
    let fetching : Container := { text := "Fetching…", rows := [] }
    let backendIP := getBackendIP sync
    if !truthy backendIP then (some (store, fetching), [])
    else
      let url := newsUrl (jvalToDisplayString backendIP)
      let failed : Container := { text := "❌ Could not load news.", rows := [] }
      match net with
      | .networkFailure => (some (store, failed), [.httpGet url])
      | .response _ok body =>
        match body with
        | none => (some (store, failed), [.httpGet url])
        | some data =>
          let store : LocalStorage := { latestNews := some data }
          match render data with
          | some rows => (some (store, { fetching with rows := rows }), [.httpGet url, .renderCall])
          | none => (some (store, failed), [.httpGet url, .renderCall])
  else
    match render latestNews with
    | some rows => (some (store, { text := "", rows := rows }), [.renderCall])
    | none => (none, [.renderCall])

/-- The popup's `refreshBtn` click handler: remove `latestNews` from local
storage, then run `loadNews`. -/
def refreshBtnClick (sync : SyncStorage) (_store : LocalStorage) (net : FetchResult) :
    Option (LocalStorage × Container) × List Event :=
  loadNews sync { latestNews := none } net

/-- C1: the Renderer's normalization is the identity on bare-array payloads,
and on a wrapper object whose `articles` field holds an array it yields that
array. -/
theorem c1_normalize_identity_and_projection
    (xs : List JVal) (fields : List (String × JVal)) (ys : List JVal)
    (h : fields.lookup "articles" = some (.vArr ys)) :
    normalizeArticles (.vArr xs) = some (.vArr xs) ∧
    normalizeArticles (.vObj fields) = some (.vArr ys) := by
  refine ⟨rfl, ?_⟩
  simp [normalizeArticles, isArray, getProp, h, truthy]

/-- Witness for C1 at a one-article-id payload. -/
theorem c1_witness :
    normalizeArticles (.vArr [.vNum 1]) = some (.vArr [.vNum 1]) ∧
    normalizeArticles (.vObj [("articles", .vArr [.vNum 1])]) = some (.vArr [.vNum 1]) :=
  c1_normalize_identity_and_projection [.vNum 1] [("articles", .vArr [.vNum 1])] [.vNum 1] rfl

/-- C2 fails on the code: on a `null` payload normalization throws a TypeError
(modelled by `none`) instead of yielding an empty sequence, and on a string
payload the popup's cached-path run leaves the container empty — the text
"No articles available." appears nowhere in the extension. -/
theorem c2_counterexample :
    normalizeArticles .vNull = none ∧
    normalizeArticles .vNull ≠ some (.vArr []) ∧
    (loadNews { backendIP := some "1.2.3.4", siteUrl := none }
        { latestNews := some (.vStr "hi") } .networkFailure).1
      = some ({ latestNews := some (.vStr "hi") }, { text := "", rows := [] }) ∧
    "" ≠ "No articles available." :=
  ⟨rfl, by simp [normalizeArticles, isArray, getProp], rfl, by simp⟩

/-- C2 amended: for every payload other than `null`/`undefined` that is not an
array and whose `articles` property is falsy (a string, an object without
`articles`, …), normalization yields the empty array and `render` appends no
rows; no "No articles available." message exists, and a `null` payload
throws instead. -/
theorem c2_other_shapes_render_nothing (v : JVal)
    (h1 : v ≠ .vNull) (h2 : v ≠ .vUndefined) (h3 : isArray v = false)
    (h4 : truthy ((getProp v "articles").getD .vUndefined) = false) :
    normalizeArticles v = some (.vArr []) ∧ render v = some [] := by
  have hn : normalizeArticles v = some (.vArr []) := by
    cases v with
    | vNull => exact absurd rfl h1
    | vUndefined => exact absurd rfl h2
    | vArr elems => simp [isArray] at h3
    | vObj fields => simp_all [normalizeArticles, isArray, getProp]
    | vBool b => simp_all [normalizeArticles, isArray, getProp]
    | vNum n => simp_all [normalizeArticles, isArray, getProp]
    | vStr s => simp_all [normalizeArticles, isArray, getProp]
  refine ⟨hn, ?_⟩
  simp [render, hn]
  rfl

/-- Witness for C2 amended at the string payload `"hi"`. -/
theorem c2_witness :
    normalizeArticles (.vStr "hi") = some (.vArr []) ∧ render (.vStr "hi") = some [] :=
  c2_other_shapes_render_nothing (.vStr "hi") (by simp) (by simp) rfl rfl

/-- C4: with no truthy `backendIP` configured, a firing of the `fetchNews`
alarm changes no stored state and produces no effect at all: no HTTP GET, no
notification, no log, no error. -/
theorem c4_unconfigured_firing_is_noop (sync : SyncStorage) (store : LocalStorage)
    (net : FetchResult) (h : truthy (getBackendIP sync) = false) :
    schedulerOnAlarm "fetchNews" sync store net = (store, []) := by
  simp [schedulerOnAlarm, h]

/-- Witness for C4 with an entirely empty sync storage. -/
theorem c4_witness :
    schedulerOnAlarm "fetchNews" { backendIP := none, siteUrl := none }
      { latestNews := none } .networkFailure = ({ latestNews := none }, []) :=
  c4_unconfigured_firing_is_noop _ _ _ rfl

/-- C3 fails on the code: the popup's fallback fetch performs no status check,
so on a response with `ok = false` and a JSON array body it stores that body
as the news payload instead of failing with a NetworkError. -/
theorem c3_counterexample :
    (loadNews { backendIP := some "1.2.3.4", siteUrl := none } { latestNews := none }
        (.response false (some (.vArr [])))).1
      = some ({ latestNews := some (.vArr []) }, { text := "Fetching…", rows := [] }) := rfl

/-- C3 amended: only the Scheduler's path treats a non-successful status as a
NetworkError (state unchanged, error logged); the popup's fallback ignores
the status and stores any JSON body as the payload. -/
theorem c3_scheduler_checks_status_popup_does_not
    (sync : SyncStorage) (store : LocalStorage) (body : Option JVal) (d : JVal)
    (hip : truthy (getBackendIP sync) = true) :
    schedulerOnAlarm "fetchNews" sync store (.response false body)
      = (store, [.httpGet (newsUrl (jvalToDisplayString (getBackendIP sync))), .logError]) ∧
    ((loadNews sync { latestNews := none } (.response false (some d))).1.map
        fun r => r.1.latestNews) = some (some d) := by
  constructor
  · simp [schedulerOnAlarm, hip]
  · cases hr : render d <;>
      simp [loadNews, hip, hr, show truthy .vUndefined = false from rfl]

/-- Witness for C3 amended with a configured address and an empty-array body. -/
theorem c3_witness :
    schedulerOnAlarm "fetchNews" { backendIP := some "1.2.3.4", siteUrl := none }
        { latestNews := none } (.response false (some (.vArr [])))
      = ({ latestNews := none },
         [.httpGet "http://1.2.3.4:8000/news", .logError]) ∧
    ((loadNews { backendIP := some "1.2.3.4", siteUrl := none } { latestNews := none }
        (.response false (some (.vArr [])))).1.map
        fun r => r.1.latestNews) = some (some (.vArr [])) :=
  c3_scheduler_checks_status_popup_does_not _ _ (some (.vArr [])) (.vArr []) rfl

/-- C5: when the popup path actually fetches (falsy cache, truthy address) and
the fetch fails — the promise rejects or the body fails to parse — local
storage is returned unchanged, the container shows exactly
"❌ Could not load news.", the trace holds the single GET (no retry), and the
outcome is `some` (no exception escapes to a caller). -/
theorem c5_popup_failure_leaves_cache_and_shows_error
    (sync : SyncStorage) (store : LocalStorage) (net : FetchResult)
    (hcache : truthy (store.latestNews.getD .vUndefined) = false)
    (hip : truthy (getBackendIP sync) = true)
    (hfail : net = .networkFailure ∨ ∃ ok, net = .response ok none) :
    loadNews sync store net
      = (some (store, { text := "❌ Could not load news.", rows := [] }),
         [.httpGet (newsUrl (jvalToDisplayString (getBackendIP sync)))]) := by
  rcases hfail with h | ⟨ok, h⟩ <;> subst h <;> simp [loadNews, hcache, hip]

/-- Witness for C5 at a network failure with an empty cache. -/
theorem c5_witness :
    loadNews { backendIP := some "1.2.3.4", siteUrl := none } { latestNews := none }
        .networkFailure
      = (some ({ latestNews := none }, { text := "❌ Could not load news.", rows := [] }),
         [.httpGet "http://1.2.3.4:8000/news"]) :=
  c5_popup_failure_leaves_cache_and_shows_error _ _ _ rfl rfl (Or.inl rfl)

/-- C6 fails on the code: starting with no configured backend address,
clearing the cache and invoking the Renderer performs no Fetch Client
invocation at all, not exactly one. -/
theorem c6_counterexample :
    ¬ ((refreshBtnClick { backendIP := none, siteUrl := none }
        { latestNews := some (.vArr []) } .networkFailure).2.countP Event.isHttpGet = 1) := by
  intro h
  simp [refreshBtnClick, loadNews, truthy, getBackendIP] at h

/-- C6 amended: when a truthy backend address is configured, clearing the
cache and invoking the Renderer emits the HTTP GET as the very first event
and exactly once — in particular before any render call; with no address
configured no fetch happens. -/
theorem c6_refresh_fetches_once_before_render
    (sync : SyncStorage) (store : LocalStorage) (net : FetchResult)
    (hip : truthy (getBackendIP sync) = true) :
    ∃ rest, (refreshBtnClick sync store net).2
        = .httpGet (newsUrl (jvalToDisplayString (getBackendIP sync))) :: rest ∧
      rest.countP Event.isHttpGet = 0 := by
  have hu : truthy .vUndefined = false := rfl
  cases net with
  | networkFailure =>
    exact ⟨[], by simp [refreshBtnClick, loadNews, hip, hu], by decide⟩
  | response ok body =>
    cases body with
    | none => exact ⟨[], by simp [refreshBtnClick, loadNews, hip, hu], by decide⟩
    | some data =>
      cases hr : render data with
      | none =>
        exact ⟨[.renderCall], by simp [refreshBtnClick, loadNews, hip, hu, hr], by decide⟩
      | some rows =>
        exact ⟨[.renderCall], by simp [refreshBtnClick, loadNews, hip, hu, hr], by decide⟩

/-- Witness for C6 amended: configured address, network failure. -/
theorem c6_witness :
    ∃ rest, (refreshBtnClick { backendIP := some "1.2.3.4", siteUrl := none }
        { latestNews := some (.vArr []) } .networkFailure).2
        = .httpGet "http://1.2.3.4:8000/news" :: rest ∧
      rest.countP Event.isHttpGet = 0 :=
  c6_refresh_fetches_once_before_render _ _ _ rfl

/-- The article of C7's payload. -/
def c7article : JVal :=
  .vObj [("url", .vStr "a"), ("title", .vStr "t"), ("summary", .vStr "s"), ("rating", .vNum 3)]

/-- The wrapper payload of C7. -/
def c7payload : JVal := .vObj [("articles", .vArr [c7article])]

/-- The row the Renderer produces for C7's article: its rating cell holds the
glyph exactly three times. -/
def c7row : String :=
  "\n      <div class=\"title\"><a href=\"a\" target=\"_blank\">t</a></div>\n      <div class=\"summary\">s</div>\n      <div class=\"rating\">🐶🐶🐶</div>\n    "

/-- C7: a successful popup fetch of `{articles:[{url:"a",title:"t",summary:"s",rating:3}]}`
stores exactly that object under `latestNews` and renders one row whose
rating cell is the glyph repeated three times; in general the glyph string of
a non-negative rating `n` is the glyph repeated exactly `n` times. -/
theorem c7_success_caches_payload_and_rates (n : Nat) :
    (loadNews { backendIP := some "1.2.3.4", siteUrl := none } { latestNews := none }
        (.response true (some c7payload))).1
      = some ({ latestNews := some c7payload }, { text := "Fetching…", rows := [c7row] }) ∧
    jsRepeat ratingGlyph (.vNum n) = some (String.join (List.replicate n ratingGlyph)) := by
  refine ⟨rfl, ?_⟩
  simp [jsRepeat, jsToIntegerOrInfinity]

/-- C8: a `fetchNews` firing with a truthy address and a successful, parsable
response stores the parsed body wholesale under `latestNews` and emits one
notification; a firing whose fetch fails (rejection, non-ok status, or parse
failure) leaves storage unchanged and only logs, with a single GET in the
trace (no retry). -/
theorem c8_scheduler_success_and_failure
    (sync : SyncStorage) (store : LocalStorage) (d : JVal) (net : FetchResult)
    (hip : truthy (getBackendIP sync) = true)
    (hfail : net = .networkFailure ∨ (∃ body, net = .response false body) ∨
      net = .response true none) :
    schedulerOnAlarm "fetchNews" sync store (.response true (some d))
      = ({ latestNews := some d },
         [.httpGet (newsUrl (jvalToDisplayString (getBackendIP sync))), .notify]) ∧
    schedulerOnAlarm "fetchNews" sync store net
      = (store, [.httpGet (newsUrl (jvalToDisplayString (getBackendIP sync))), .logError]) := by
  constructor
  · simp [schedulerOnAlarm, hip]
  · rcases hfail with h | ⟨body, h⟩ | h <;> subst h <;> simp [schedulerOnAlarm, hip]

/-- Witness for C8 with a concrete address, payload, and a rejected fetch. -/
theorem c8_witness :
    schedulerOnAlarm "fetchNews" { backendIP := some "1.2.3.4", siteUrl := none }
        { latestNews := none } (.response true (some (.vArr [])))
      = ({ latestNews := some (.vArr []) },
         [.httpGet "http://1.2.3.4:8000/news", .notify]) ∧
    schedulerOnAlarm "fetchNews" { backendIP := some "1.2.3.4", siteUrl := none }
        { latestNews := none } .networkFailure
      = ({ latestNews := none },
         [.httpGet "http://1.2.3.4:8000/news", .logError]) :=
  c8_scheduler_success_and_failure _ _ (.vArr []) _ rfl (Or.inl rfl)

/-- C9 fails on the code: a present cached payload `null` (stored wholesale by
a successful fetch of the JSON body `null`) is falsy, so the popup treats it
as absent and performs an HTTP fetch even though the cache is non-absent. -/
theorem c9_counterexample :
    ¬ ((loadNews { backendIP := some "1.2.3.4", siteUrl := none }
        { latestNews := some .vNull } (.response true (some (.vArr [])))).2.countP
      Event.isHttpGet = 0) := by decide

/-- C9 amended: a present and truthy cached payload is rendered immediately —
the trace is exactly one render call, no HTTP GET, whatever the network
would answer and however old the payload is — and the cache is left
unchanged. A present falsy value (`null`, `0`, `""`, `false`) is instead
treated as absent and triggers the fetch path. -/
theorem c9_truthy_cache_renders_without_fetch
    (sync : SyncStorage) (store : LocalStorage) (net : FetchResult) (v : JVal)
    (hc : store.latestNews = some v) (ht : truthy v = true) :
    (loadNews sync store net).2 = [.renderCall] ∧
    ∀ rows, render v = some rows →
      (loadNews sync store net).1 = some (store, { text := "", rows := rows }) := by
  constructor
  · cases hr : render v <;> simp [loadNews, hc, ht, hr]
  · intro rows hr
    simp [loadNews, hc, ht, hr]

/-- Witness for C9 amended at an empty-array cache. -/
theorem c9_witness :
    (loadNews { backendIP := none, siteUrl := none } { latestNews := some (.vArr []) }
        .networkFailure).2 = [.renderCall] ∧
    ∀ rows, render (.vArr []) = some rows →
      (loadNews { backendIP := none, siteUrl := none } { latestNews := some (.vArr []) }
          .networkFailure).1
        = some ({ latestNews := some (.vArr []) }, { text := "", rows := rows }) :=
  c9_truthy_cache_renders_without_fetch _ _ _ _ rfl rfl

/-- An article object as the feed produces them, with an arbitrary rating. -/
def mkArticle (url title summary : String) (rating : JVal) : JVal :=
  .vObj [("url", .vStr url), ("title", .vStr title), ("summary", .vStr summary),
    ("rating", rating)]

/-- C10: for every article with a negative integer rating, the row
construction throws (the glyph repetition raises a RangeError) instead of
producing a row, and on the cached-payload path the exception escapes
`loadNews` uncaught. -/
theorem c10_negative_rating_throws_uncaught
    (u t s : String) (r : Int) (hr : r < 0) (sync : SyncStorage) (net : FetchResult) :
    articleRowHtml (mkArticle u t s (.vNum r)) = none ∧
    renderBare (.vArr [mkArticle u t s (.vNum r)]) = none ∧
    loadNews sync { latestNews := some (.vArr [mkArticle u t s (.vNum r)]) } net
      = (none, [.renderCall]) := by
  have hrep : jsRepeat ratingGlyph (.vNum r) = none := by
    simp [jsRepeat, jsToIntegerOrInfinity, hr]
  have hrow : articleRowHtml (mkArticle u t s (.vNum r)) = none := by
    simp [articleRowHtml, mkArticle, getProp, List.lookup, hrep]
  have hrender : render (.vArr [mkArticle u t s (.vNum r)]) = none := by
    simp [render, normalizeArticles, isArray, List.mapM.loop, hrow]
  refine ⟨hrow, by simp [renderBare, List.mapM.loop, hrow], ?_⟩
  simp [loadNews, hrender, show truthy (.vArr [mkArticle u t s (.vNum r)]) = true from rfl]

/-- Witness for C10 at rating `-1`. -/
theorem c10_witness :
    articleRowHtml (mkArticle "a" "t" "s" (.vNum (-1))) = none ∧
    renderBare (.vArr [mkArticle "a" "t" "s" (.vNum (-1))]) = none ∧
    loadNews { backendIP := none, siteUrl := none }
        { latestNews := some (.vArr [mkArticle "a" "t" "s" (.vNum (-1))]) } .networkFailure
      = (none, [.renderCall]) :=
  c10_negative_rating_throws_uncaught "a" "t" "s" (-1) (by decide) _ _

end Catbreak
